import Mathlib

/-!
Shallow embedding of the solana-sniper-core repository (Rust) in Lean 4.

Source files embedded:
  * src/scanner/pump_fun.rs   (PumpToken, PumpFunScanner.get_eligible_tokens,
                               PumpFunScanner.monitor_eligible_tokens)
  * src/trading/risk.rs       (RiskMonitor and its check functions)

Modelling conventions:
  * Rust f64 values are modelled as ℚ (the source only compares and divides;
    no float-specific behaviour is relied on by any claim).
  * Rust u64 values (timestamps, reserves) are modelled as ℕ; u64
    saturating_sub coincides with ℕ subtraction.
  * Time: the source reads `self.start_time.elapsed().as_secs()`; we pass the
    elapsed whole seconds as an explicit ℕ argument.
  * Effects: the only effect of the risk checks is `emergency_sell`, which in
    the source logs an intended swap of `stake_sol * fraction` SOL.  We record
    each such call as a `Sell` value; a tick returns the list of sells it
    performed, in the order the source performs them.
-/

/-- Token record from src/scanner/pump_fun.rs (struct PumpToken). -/
structure PumpToken where
  mint : String
  name : String
  symbol : String
  description : String
  image_uri : String
  created_timestamp : ℕ
  metadata_uri : String
  market_cap : ℚ
  liquidity : ℚ
  price : ℚ
  price_change_24h : ℚ
  is_mint_authority_revoked : Bool
  lp_status : String
  creator_address : String
deriving DecidableEq, Repr

/-- The filter pipeline of PumpFunScanner.get_eligible_tokens applied to the
list of tokens decoded from a successful HTTP response: age `< 900` seconds
(u64 saturating subtraction), mint authority revoked, `liquidity >= 5.0`,
`lp_status` equal to "initialized" or "pending", and `price_change_24h > 20.0`,
applied in that order. -/
def eligible_filter (now : ℕ) (tokens : List PumpToken) : List PumpToken :=
  (((((tokens.filter
    (fun t => decide (now - t.created_timestamp < 900))).filter
    (fun t => t.is_mint_authority_revoked)).filter
    (fun t => decide (t.liquidity ≥ 5.0))).filter
    (fun t => decide (t.lp_status = "initialized" ∨ t.lp_status = "pending"))).filter
    (fun t => decide (t.price_change_24h > 20.0)))

/-- PumpFunScanner.get_eligible_tokens: the HTTP fetch and JSON decoding are
external; their outcome enters as `fetched` (an error for a failed request,
non-2xx status, or undecodable body).  On success the source filters the
decoded list and returns it. -/
def get_eligible_tokens (now : ℕ) (fetched : Except String (List PumpToken)) :
    Except String (List PumpToken) :=
  match fetched with
  | Except.error e => Except.error e
  | Except.ok tokens => Except.ok (eligible_filter now tokens)

/-- One iteration of the match in PumpFunScanner.monitor_eligible_tokens:
`Ok(tokens) if !tokens.is_empty()` invokes the callback with that list,
`Err(e)` only logs, and `Ok` of an empty list does nothing.  The returned
`Option` records whether (and with what argument) the callback was invoked. -/
def monitor_step (r : Except String (List PumpToken)) : Option (List PumpToken) :=
  match r with
  | Except.ok tokens => if tokens.isEmpty then none else some tokens
  | Except.error _ => none

/-- PumpFunScanner.monitor_eligible_tokens over a finite prefix of the
infinite polling loop: the loop body never breaks or returns, so every
iteration of the prefix is processed; the result is the sequence of callback
invocations, in order. -/
def monitor_eligible_tokens : List (Except String (List PumpToken)) → List (List PumpToken)
  | [] => []
  | r :: rest =>
    match monitor_step r with
    | some tokens => tokens :: monitor_eligible_tokens rest
    | none => monitor_eligible_tokens rest

/-- State of src/trading/risk.rs RiskMonitor (the fields the exit logic
reads: entry_price, stake_sol, moon_allocation, peak_price; client, wallet,
token_mint and start_time are external plumbing, with start_time represented
by the elapsed-seconds argument of each check). -/
structure RiskMonitor where
  entry_price : ℚ
  stake_sol : ℚ
  moon_allocation : ℚ
  peak_price : ℚ
deriving DecidableEq, Repr

/-- RiskMonitor.new: entry price and peak price are both initialised to the
token price, and moon_allocation is 20% of the stake. -/
def RiskMonitor.new (price stake_sol : ℚ) : RiskMonitor :=
  { entry_price := price
    stake_sol := stake_sol
    moon_allocation := stake_sol * 0.2
    peak_price := price }

/-- One call to RiskMonitor.emergency_sell, as the source performs it: the
amount submitted for sale is `stake_sol * fraction`. -/
structure Sell where
  fraction : ℚ
  amount : ℚ
deriving DecidableEq, Repr

/-- RiskMonitor.emergency_sell: sells `self.stake_sol * fraction`. -/
def emergency_sell (m : RiskMonitor) (fraction : ℚ) : Sell :=
  { fraction := fraction, amount := m.stake_sol * fraction }

/-- The hardcoded `initial_reserve = 10_000_000_000` inside
RiskMonitor.check_rug_pull (source comment: mock; in reality it should come
from the pool at entry). -/
def initial_reserve : ℕ := 10000000000

/-- RiskMonitor.check_rug_pull: `drop_ratio = 1 - current_reserve /
initial_reserve`; if `drop_ratio >= 0.4` it sells 100%. -/
def check_rug_pull (m : RiskMonitor) (current_reserve : ℕ) : List Sell :=
  let drop_ratio : ℚ := 1 - (current_reserve : ℚ) / (initial_reserve : ℚ)
  if drop_ratio ≥ 0.4 then [emergency_sell m 1.0] else []

/-- RiskMonitor.check_panic_sell: `drawdown = (entry_price - current_price) /
entry_price`; if `drawdown >= 0.6` it sells 100%; else if `elapsed > 90`
seconds and `current_price < entry_price * 1.1` it sells 50%. -/
def check_panic_sell (m : RiskMonitor) (current_price : ℚ) (elapsed : ℕ) : List Sell :=
  let drawdown := (m.entry_price - current_price) / m.entry_price
  if drawdown ≥ 0.6 then [emergency_sell m 1.0]
  else if elapsed > 90 ∧ current_price < m.entry_price * 1.1 then [emergency_sell m 0.5]
  else []

/-- RiskMonitor.check_time_decay (the trailing-stop check): the source
computes `drawdown_from_peak = (peak_price - entry_price * 1.0) / peak_price`
— note that the current observed price is not an argument of this function —
and sells 100% if `drawdown_from_peak >= 0.3 && peak_price > entry_price`. -/
def check_time_decay (m : RiskMonitor) : List Sell :=
  let drawdown_from_peak := (m.peak_price - m.entry_price * 1.0) / m.peak_price
  if drawdown_from_peak ≥ 0.3 ∧ m.peak_price > m.entry_price then [emergency_sell m 1.0]
  else []

/-- RiskMonitor.sell_moon_position: sells the moon share,
`emergency_sell(moon_allocation / stake_sol)`. -/
def sell_moon_position (m : RiskMonitor) : Sell :=
  emergency_sell m (m.moon_allocation / m.stake_sol)

/-- RiskMonitor.check_moon_exit: `moon_multiplier = current_price /
entry_price`; if `moon_multiplier >= 50.0` it sells the moon share and
returns; else if `elapsed > 86400` seconds it sells the moon share. -/
def check_moon_exit (m : RiskMonitor) (current_price : ℚ) (elapsed : ℕ) : List Sell :=
  let moon_multiplier := current_price / m.entry_price
  if moon_multiplier ≥ 50.0 then [sell_moon_position m]
  else if elapsed > 86400 then [sell_moon_position m]
  else []

/-- A price observation: the pair returned by get_price_and_liquidity
(current price and quote reserve of the pool). -/
structure Observation where
  price : ℚ
  quote_reserve : ℕ
deriving DecidableEq, Repr

/-- The peak update in RiskMonitor.check_risk_conditions: `if current_price >
self.peak_price { self.peak_price = current_price }`. -/
def update_peak (m : RiskMonitor) (current_price : ℚ) : RiskMonitor :=
  if current_price > m.peak_price then { m with peak_price := current_price } else m

/-- RiskMonitor.check_risk_conditions on a tick whose observation succeeded:
update the peak, then run check_rug_pull, check_panic_sell, check_time_decay
and check_moon_exit in that order.  Every check that triggers performs its
emergency_sell and control continues to the next check; the tick returns the
updated state and all sells performed, in source order. -/
def check_risk_conditions (m : RiskMonitor) (obs : Observation) (elapsed : ℕ) :
    RiskMonitor × List Sell :=
  let m2 := update_peak m obs.price
  (m2, check_rug_pull m2 obs.quote_reserve
        ++ check_panic_sell m2 obs.price elapsed
        ++ check_time_decay m2
        ++ check_moon_exit m2 obs.price elapsed)

/-- The loop body of RiskMonitor.start_monitoring over a finite prefix of
ticks.  Each tick carries its elapsed seconds and the outcome of
get_price_and_liquidity.  On `Err` the source logs the error and `break`s the
loop, so every later tick is dropped; on `Ok` it runs check_risk_conditions
and continues with the updated state.  The result is the list of per-tick
sell lists for the ticks that executed. -/
def monitoringTrace (m : RiskMonitor) :
    List (ℕ × Except String Observation) → List (List Sell)
  | [] => []
  | (_, Except.error _) :: _ => []
  | (elapsed, Except.ok obs) :: rest =>
    let r := check_risk_conditions m obs elapsed
    r.2 :: monitoringTrace r.1 rest

/-- Total SOL amount submitted for sale over a trace of ticks. -/
def totalSold (trace : List (List Sell)) : ℚ :=
  ((trace.flatten).map Sell.amount).sum

/-- A concrete token used to instantiate the scanner theorems: created 500s
before a scan at time 1000, mint authority revoked, liquidity 6, lp_status
"initialized", 24h change 25. -/
def sampleToken : PumpToken :=
  { mint := "So11111111111111111111111111111111111111112"
    name := "token"
    symbol := "TKN"
    description := "d"
    image_uri := "img"
    created_timestamp := 500
    metadata_uri := "uri"
    market_cap := 100
    liquidity := 6
    price := 1
    price_change_24h := 25
    is_mint_authority_revoked := true
    lp_status := "initialized"
    creator_address := "c" }

/-- C9: every token returned by a successful get_eligible_tokens scan
satisfies all five static eligibility predicates — age since creation
strictly below 900 seconds, mint authority revoked, liquidity at least 5.0,
lifecycle status "initialized" or "pending", and 24-hour price change
strictly above 20.0. -/
theorem C9_eligible_tokens_satisfy_filters (now : ℕ)
    (fetched : Except String (List PumpToken)) (result : List PumpToken)
    (t : PumpToken) (hok : get_eligible_tokens now fetched = Except.ok result)
    (ht : t ∈ result) :
    now - t.created_timestamp < 900 ∧
    t.is_mint_authority_revoked = true ∧
    t.liquidity ≥ 5.0 ∧
    (t.lp_status = "initialized" ∨ t.lp_status = "pending") ∧
    t.price_change_24h > 20.0 := by
  cases fetched with
  | error e => simp [get_eligible_tokens] at hok
  | ok tokens =>
    simp only [get_eligible_tokens, Except.ok.injEq] at hok
    subst hok
    simp only [eligible_filter, List.mem_filter, decide_eq_true_eq] at ht
    tauto

/-- C9 witness: instantiation at a concrete scan returning sampleToken. -/
theorem C9_witness :
    sampleToken.liquidity ≥ 5.0 ∧ sampleToken.price_change_24h > 20.0 :=
  have h := C9_eligible_tokens_satisfy_filters 1000 (Except.ok [sampleToken])
    (eligible_filter 1000 [sampleToken]) sampleToken rfl
    (by norm_num [eligible_filter, sampleToken, List.filter])
  ⟨h.2.2.1, h.2.2.2.2⟩

/-- C10: in the polling loop of monitor_eligible_tokens, the callback is
invoked on an iteration exactly when the fetch succeeded with a non-empty
filtered list, and with exactly that list; and the loop never terminates
early — the callback invocations of a longer run extend those of a prefix,
iterations that error or yield an empty list contributing none. -/
theorem C10_callback_iff_ok_nonempty (r : Except String (List PumpToken))
    (l : List PumpToken) (rs rs2 : List (Except String (List PumpToken))) :
    (monitor_step r = some l ↔ r = Except.ok l ∧ l ≠ []) ∧
    monitor_eligible_tokens (rs ++ rs2) =
      monitor_eligible_tokens rs ++ monitor_eligible_tokens rs2 := by
  constructor
  · cases r with
    | error e => simp [monitor_step]
    | ok ts =>
      by_cases h : ts.isEmpty
      · rw [List.isEmpty_iff] at h
        subst h
        simp [monitor_step]
      · have hne : ts ≠ [] := fun hnil => h (by simp [hnil])
        simp only [monitor_step, if_neg h, Option.some.injEq, Except.ok.injEq]
        constructor
        · rintro rfl; exact ⟨rfl, hne⟩
        · rintro ⟨rfl, _⟩; rfl
  · induction rs with
    | nil => rfl
    | cons hd tl ih =>
      cases h : monitor_step hd <;>
        simp [monitor_eligible_tokens, h, ih]

theorem update_peak_entry_price (m : RiskMonitor) (p : ℚ) :
    (update_peak m p).entry_price = m.entry_price := by
  unfold update_peak; split <;> rfl

theorem update_peak_stake_sol (m : RiskMonitor) (p : ℚ) :
    (update_peak m p).stake_sol = m.stake_sol := by
  unfold update_peak; split <;> rfl

theorem update_peak_moon_allocation (m : RiskMonitor) (p : ℚ) :
    (update_peak m p).moon_allocation = m.moon_allocation := by
  unfold update_peak; split <;> rfl

theorem emergency_sell_update_peak (m : RiskMonitor) (p f : ℚ) :
    emergency_sell (update_peak m p) f = emergency_sell m f := by
  unfold emergency_sell update_peak; split <;> rfl

/-- C1 is false on the code: on a tick where both the rug condition and the
panic condition hold, both checks perform their full-stake emergency sell —
a triggered check does not skip the remaining checks of the tick, so two
full-exit liquidations compound within a single tick (entry 1, stake 10,
observed price 0.3, observed reserve 5_000_000_000, elapsed 100 s). -/
theorem C1_counterexample :
    (check_risk_conditions (RiskMonitor.new 1 10) ⟨0.3, 5000000000⟩ 100).2 =
      [⟨1.0, 10⟩, ⟨1.0, 10⟩] := by
  norm_num [check_risk_conditions, update_peak, check_rug_pull, check_panic_sell,
    check_time_decay, check_moon_exit, emergency_sell, sell_moon_position,
    RiskMonitor.new, initial_reserve]

/-- C1 amended: the four checks are evaluated in the fixed order rug-pull,
panic, trailing-stop, moon, but every triggered check applies its effect
rather than skipping the rest of the tick: whenever the rug condition and the
panic full-exit condition both hold, the tick applies the rug check's
full-stake sell followed by the panic check's full-stake sell, followed by
whatever the trailing-stop and moon checks apply. -/
theorem C1_order_fixed_but_effects_compound (m : RiskMonitor) (obs : Observation)
    (elapsed : ℕ)
    (hrug : 1 - (obs.quote_reserve : ℚ) / (initial_reserve : ℚ) ≥ 0.4)
    (hpanic : (m.entry_price - obs.price) / m.entry_price ≥ 0.6) :
    (check_risk_conditions m obs elapsed).2 =
      emergency_sell m 1.0 :: emergency_sell m 1.0 ::
        (check_time_decay (update_peak m obs.price)
          ++ check_moon_exit (update_peak m obs.price) obs.price elapsed) := by
  have hrug2 : check_rug_pull (update_peak m obs.price) obs.quote_reserve
      = [emergency_sell m 1.0] := by
    simp only [check_rug_pull]
    rw [if_pos hrug, emergency_sell_update_peak]
  have hpanic2 : check_panic_sell (update_peak m obs.price) obs.price elapsed
      = [emergency_sell m 1.0] := by
    simp only [check_panic_sell, update_peak_entry_price]
    rw [if_pos hpanic, emergency_sell_update_peak]
  simp only [check_risk_conditions, hrug2, hpanic2]
  rfl

/-- C1 witness: the amended theorem applied at entry 1, stake 10, observed
price 0.3, observed reserve 5_000_000_000, elapsed 100 s. -/
theorem C1_witness :
    (check_risk_conditions (RiskMonitor.new 1 10) ⟨0.3, 5000000000⟩ 100).2 =
      emergency_sell (RiskMonitor.new 1 10) 1.0 ::
        emergency_sell (RiskMonitor.new 1 10) 1.0 ::
        (check_time_decay (update_peak (RiskMonitor.new 1 10) 0.3)
          ++ check_moon_exit (update_peak (RiskMonitor.new 1 10) 0.3) 0.3 100) :=
  C1_order_fixed_but_effects_compound (RiskMonitor.new 1 10) ⟨0.3, 5000000000⟩ 100
    (by norm_num [initial_reserve]) (by norm_num [RiskMonitor.new])

/-- C2 (code bug): check_time_decay never reads the current observed price —
it computes the drawdown of the ENTRY price from the peak, not of the
observation.  With entry price 1, stake 10 and an observed price of 2 (so the
peak becomes 2 and the current price equals the peak — a 0% drawdown from the
peak, far below 0.30), the check nevertheless performs a full-stake sell. -/
theorem C2_code_bug_trailing_stop_ignores_price :
    check_time_decay (update_peak (RiskMonitor.new 1 10) 2) = [⟨1.0, 10⟩] ∧
    ((update_peak (RiskMonitor.new 1 10) 2).peak_price - 2) /
        (update_peak (RiskMonitor.new 1 10) 2).peak_price < 0.3 := by
  constructor
  · norm_num [check_time_decay, update_peak, RiskMonitor.new, emergency_sell]
  · norm_num [update_peak, RiskMonitor.new]

/-- C4 (code bug): check_rug_pull compares the observed reserve against the
hardcoded constant initial_reserve = 10_000_000_000 — the RiskMonitor stores
no entry reserve at all.  For a position whose pool held 20_000_000_000 at
entry, an observed reserve of 10_000_000_000 is a 50% ≥ 40% drop, yet the
check sells nothing because the hardcoded baseline makes its drop ratio 0. -/
theorem C4_code_bug_rug_check_hardcoded_baseline :
    check_rug_pull (RiskMonitor.new 1 10) 10000000000 = [] ∧
    1 - (10000000000 : ℚ) / (20000000000 : ℚ) ≥ 0.4 := by
  constructor
  · norm_num [check_rug_pull, initial_reserve]
  · norm_num

theorem totalSold_cons (l : List Sell) (t : List (List Sell)) :
    totalSold (l :: t) = (l.map Sell.amount).sum + totalSold t := by
  simp [totalSold]

/-- C3 is false on the code: the monitor keeps no fired flags, so a one-shot
policy's liquidation executes again on the next tick with an unchanged
observation.  With entry 1, stake 10, observed price 1.2 and reserve 10^10 at
elapsed 86401 s and 86402 s, the moon exit sells the moon share (fraction
0.2, amount 2) on BOTH ticks. -/
theorem C3_counterexample :
    monitoringTrace (RiskMonitor.new 1 10)
        [(86401, Except.ok ⟨1.2, 10000000000⟩),
         (86402, Except.ok ⟨1.2, 10000000000⟩)] =
      [[⟨0.2, 2⟩], [⟨0.2, 2⟩]] := by
  norm_num [monitoringTrace, check_risk_conditions, update_peak, check_rug_pull,
    check_panic_sell, check_time_decay, check_moon_exit, emergency_sell,
    sell_moon_position, RiskMonitor.new, initial_reserve]

/-- C3 amended: the code keeps no fired-flag state, so neither "one-shot"
policy fires only once: whenever its trigger condition holds the policy
fires, and after the tick's only state update (the peak) re-evaluating with
the unchanged observation one tick later fires the same liquidation again —
this holds for the moon exit and for the panic-timeout half-stake exit. -/
theorem C3_one_shot_policies_refire (m : RiskMonitor) (price : ℚ) (elapsed : ℕ) :
    ((price / m.entry_price ≥ 50.0 ∨ 86400 < elapsed) →
      check_moon_exit m price elapsed = [sell_moon_position m] ∧
      check_moon_exit (update_peak m price) price (elapsed + 1) =
        [sell_moon_position (update_peak m price)]) ∧
    (¬((m.entry_price - price) / m.entry_price ≥ 0.6) → 90 < elapsed →
        price < m.entry_price * 1.1 →
      check_panic_sell m price elapsed = [emergency_sell m 0.5] ∧
      check_panic_sell (update_peak m price) price (elapsed + 1) =
        [emergency_sell (update_peak m price) 0.5]) := by
  constructor
  · intro h
    by_cases hm : price / m.entry_price ≥ 50.0
    · constructor
      · simp only [check_moon_exit]
        rw [if_pos hm]
      · simp only [check_moon_exit, update_peak_entry_price]
        rw [if_pos hm]
    · have ht : 86400 < elapsed := h.resolve_left hm
      constructor
      · simp only [check_moon_exit]
        rw [if_neg hm, if_pos ht]
      · simp only [check_moon_exit, update_peak_entry_price]
        rw [if_neg hm, if_pos (Nat.lt_succ_of_lt ht)]
  · intro h1 h2 h3
    constructor
    · simp only [check_panic_sell]
      rw [if_neg h1, if_pos ⟨h2, h3⟩]
    · simp only [check_panic_sell, update_peak_entry_price]
      rw [if_neg h1, if_pos ⟨Nat.lt_succ_of_lt h2, h3⟩]

/-- C3 witness: the amended theorem's moon component at entry 1, stake 10,
price 1.2, elapsed 86401 s (time condition holds): the moon exit fires on the
tick and fires again one tick later with the unchanged observation. -/
theorem C3_witness :
    check_moon_exit (RiskMonitor.new 1 10) 1.2 86401 =
        [sell_moon_position (RiskMonitor.new 1 10)] ∧
    check_moon_exit (update_peak (RiskMonitor.new 1 10) 1.2) 1.2 86402 =
      [sell_moon_position (update_peak (RiskMonitor.new 1 10) 1.2)] :=
  (C3_one_shot_policies_refire (RiskMonitor.new 1 10) 1.2 86401).1
    (Or.inr (by norm_num))

/-- C5 is false on the code: liquidation amounts are fractions of the
ORIGINAL stake and nothing tracks a remaining stake, so repeated exits
oversell.  With entry 1 and stake 10, three ticks at elapsed 100/101/102 s
with the price still at entry each perform the panic-timeout half-stake sell,
for 15 SOL sold in total out of a 10 SOL stake. -/
theorem C5_counterexample :
    totalSold (monitoringTrace (RiskMonitor.new 1 10)
        [(100, Except.ok ⟨1, 10000000000⟩), (101, Except.ok ⟨1, 10000000000⟩),
         (102, Except.ok ⟨1, 10000000000⟩)]) = 15 ∧ (10 : ℚ) < 15 := by
  constructor
  · norm_num [totalSold, monitoringTrace, check_risk_conditions, update_peak,
      check_rug_pull, check_panic_sell, check_time_decay, check_moon_exit,
      emergency_sell, sell_moon_position, RiskMonitor.new, initial_reserve]
  · norm_num

/-- C5 amended: every emergency sell submits stake_sol * fraction — a
fraction of the ORIGINAL stake, not of what remains — and the monitor state
carries no remaining stake, so n consecutive ticks on which only the
panic-timeout half-stake exit triggers sell n * (stake * 0.5) in total, which
exceeds the stake as soon as n ≥ 3. -/
theorem C5_sells_are_fractions_of_original_stake (m : RiskMonitor) (n elapsed : ℕ)
    (hpeak : m.peak_price = m.entry_price) (hpos : 0 < m.entry_price)
    (h90 : 90 < elapsed) (h24 : elapsed ≤ 86400) :
    totalSold (monitoringTrace m
        (List.replicate n (elapsed, Except.ok ⟨m.entry_price, initial_reserve⟩))) =
      (n : ℚ) * (m.stake_sol * 0.5) := by
  have hne : m.entry_price ≠ 0 := ne_of_gt hpos
  have hup : update_peak m m.entry_price = m := by
    unfold update_peak
    rw [hpeak, if_neg (lt_irrefl m.entry_price)]
  have h1 : check_rug_pull m initial_reserve = [] := by
    simp only [check_rug_pull]
    rw [div_self (by norm_num [initial_reserve] : ((initial_reserve : ℕ) : ℚ) ≠ 0)]
    rw [if_neg (by norm_num : ¬((1 : ℚ) - 1 ≥ 0.4))]
  have h2 : check_panic_sell m m.entry_price elapsed = [emergency_sell m 0.5] := by
    simp only [check_panic_sell, sub_self, zero_div]
    rw [if_neg (by norm_num : ¬((0 : ℚ) ≥ 0.6))]
    rw [if_pos ⟨h90, by nlinarith⟩]
  have h3 : check_time_decay m = [] := by
    simp only [check_time_decay, hpeak]
    rw [if_neg]
    rintro ⟨-, hlt⟩
    exact lt_irrefl _ hlt
  have h4 : check_moon_exit m m.entry_price elapsed = [] := by
    simp only [check_moon_exit]
    rw [div_self hne]
    rw [if_neg (by norm_num : ¬((1 : ℚ) ≥ 50.0)), if_neg (by omega : ¬(elapsed > 86400))]
  have hstep : check_risk_conditions m ⟨m.entry_price, initial_reserve⟩ elapsed =
      (m, [emergency_sell m 0.5]) := by
    simp only [check_risk_conditions, hup, h1, h2, h3, h4]
    rfl
  induction n with
  | zero => simp [totalSold, monitoringTrace]
  | succ k ih =>
    rw [List.replicate_succ]
    simp only [monitoringTrace, hstep, totalSold_cons, ih]
    simp only [List.map_cons, List.map_nil, List.sum_cons, List.sum_nil,
      emergency_sell]
    push_cast
    ring

/-- C5 witness: the amended theorem at entry 1, stake 10, n = 3, elapsed
100 s: three half-stake sells totalling 15 SOL out of a 10 SOL stake. -/
theorem C5_witness :
    totalSold (monitoringTrace (RiskMonitor.new 1 10)
        (List.replicate 3
          (100, Except.ok ⟨(RiskMonitor.new 1 10).entry_price, initial_reserve⟩))) =
      ((3 : ℕ) : ℚ) * ((RiskMonitor.new 1 10).stake_sol * 0.5) :=
  C5_sells_are_fractions_of_original_stake (RiskMonitor.new 1 10) 3 100 rfl
    (by norm_num [RiskMonitor.new]) (by norm_num) (by norm_num)

/-- C6 is false on the code: start_monitoring logs a failed tick's error and
then BREAKS the loop.  After a feed failure on the first tick, the second
tick — whose observation alone triggers the panic-timeout half-stake sell —
is never processed: the two-tick run's trace is empty, while the same
successful tick alone performs the sell. -/
theorem C6_counterexample :
    monitoringTrace (RiskMonitor.new 1 10)
        [(0, Except.error "transient feed failure"),
         (100, Except.ok ⟨1, 10000000000⟩)] = [] ∧
    monitoringTrace (RiskMonitor.new 1 10) [(100, Except.ok ⟨1, 10000000000⟩)] =
      [[⟨0.5, 5⟩]] := by
  constructor
  · rfl
  · norm_num [monitoringTrace, check_risk_conditions, update_peak, check_rug_pull,
      check_panic_sell, check_time_decay, check_moon_exit, emergency_sell,
      sell_moon_position, RiskMonitor.new, initial_reserve]

/-- C6 amended: a failed price observation stops the monitoring loop: the
error is logged and the loop breaks, so the trace of any run equals the trace
of its prefix ending at the first failing tick — everything after the failure
is discarded, whatever it is. -/
theorem C6_feed_failure_stops_loop (m : RiskMonitor)
    (ticks rest : List (ℕ × Except String Observation)) (t : ℕ) (e : String) :
    monitoringTrace m (ticks ++ (t, Except.error e) :: rest) =
      monitoringTrace m (ticks ++ [(t, Except.error e)]) := by
  induction ticks generalizing m with
  | nil => rfl
  | cons hd tl ih =>
    rcases hd with ⟨t2, r⟩
    cases r with
    | error e2 => rfl
    | ok obs =>
      simp only [List.cons_append, monitoringTrace, List.append_eq]
      rw [ih]

/-- C7 is false on the code in its not-yet-fired clause: there is no
panic-timeout flag, so after the half-stake exit fires on one tick it fires
again on the next tick with the unchanged observation (entry 1, stake 10,
price 1, reserve 10^10, elapsed 100 s then 101 s): both ticks sell fraction
0.5, amount 5. -/
theorem C7_counterexample :
    monitoringTrace (RiskMonitor.new 1 10)
        [(100, Except.ok ⟨1, 10000000000⟩), (101, Except.ok ⟨1, 10000000000⟩)] =
      [[⟨0.5, 5⟩], [⟨0.5, 5⟩]] := by
  norm_num [monitoringTrace, check_risk_conditions, update_peak, check_rug_pull,
    check_panic_sell, check_time_decay, check_moon_exit, emergency_sell,
    sell_moon_position, RiskMonitor.new, initial_reserve]

/-- C7 amended: per tick, check_panic_sell performs the full-stake sell
exactly when the drawdown from entry, (entry_price - price) / entry_price, is
at least 0.60; otherwise it performs the half-stake sell exactly when more
than 90 seconds have elapsed and the price is below entry_price * 1.1 — with
no not-yet-fired gating, since the code keeps no flag. -/
theorem C7_panic_check_thresholds (m : RiskMonitor) (price : ℚ) (elapsed : ℕ) :
    (emergency_sell m 1.0 ∈ check_panic_sell m price elapsed ↔
      (m.entry_price - price) / m.entry_price ≥ 0.6) ∧
    (emergency_sell m 0.5 ∈ check_panic_sell m price elapsed ↔
      ¬((m.entry_price - price) / m.entry_price ≥ 0.6) ∧
        90 < elapsed ∧ price < m.entry_price * 1.1) := by
  have hne : emergency_sell m 1.0 ≠ emergency_sell m 0.5 := by
    intro h
    have hfr := congrArg Sell.fraction h
    norm_num [emergency_sell] at hfr
  simp only [check_panic_sell]
  by_cases h1 : (m.entry_price - price) / m.entry_price ≥ 0.6
  · rw [if_pos h1]
    refine ⟨by simp [h1], ?_⟩
    simp only [List.mem_singleton]
    constructor
    · intro h
      exact absurd h.symm hne
    · rintro ⟨hc, -⟩
      exact absurd h1 hc
  · rw [if_neg h1]
    by_cases h2 : elapsed > 90 ∧ price < m.entry_price * 1.1
    · rw [if_pos h2]
      refine ⟨?_, ?_⟩
      · simp only [List.mem_singleton]
        constructor
        · intro h
          exact absurd h hne
        · intro h
          exact absurd h h1
      · simp only [List.mem_singleton]
        exact ⟨fun _ => ⟨h1, h2.1, h2.2⟩, fun _ => trivial⟩
    · rw [if_neg h2]
      refine ⟨?_, ?_⟩
      · simp only [List.not_mem_nil, false_iff]
        exact h1
      · simp only [List.not_mem_nil, false_iff]
        rintro ⟨-, ha, hb⟩
        exact h2 ⟨ha, hb⟩

/-- C8 is false on the code at the 24-hour boundary: the time condition is
strictly elapsed > 86400 seconds, so at elapsed exactly 86400 with a 1.2x
multiplier (below 50x) the moon check sells nothing, where the claim requires
the MoonExit to fire already. -/
theorem C8_counterexample :
    check_moon_exit (RiskMonitor.new 1 10) 1.2 86400 = [] := by
  norm_num [check_moon_exit, RiskMonitor.new, sell_moon_position, emergency_sell]

/-- C8 amended: on every tick, check_moon_exit performs a moon sell exactly
when price / entry_price ≥ 50.0 or STRICTLY more than 86400 seconds have
elapsed (at exactly 86400 it does not fire) — with no once-only gating, since
no flag exists — and every moon sell liquidates exactly the moon
sub-allocation: fraction 0.2 of the stake, amount 0.2 * stake. -/
theorem C8_moon_exit_threshold (p s price : ℚ) (elapsed : ℕ) (hs : s ≠ 0) :
    (check_moon_exit (RiskMonitor.new p s) price elapsed ≠ [] ↔
      price / p ≥ 50.0 ∨ 86400 < elapsed) ∧
    ∀ x ∈ check_moon_exit (RiskMonitor.new p s) price elapsed, x = ⟨0.2, 0.2 * s⟩ := by
  have hfrac : (s * 0.2) / s = (0.2 : ℚ) := by
    rw [mul_comm, mul_div_assoc, div_self hs, mul_one]
  have hmoon : sell_moon_position (RiskMonitor.new p s) = ⟨0.2, 0.2 * s⟩ := by
    simp only [sell_moon_position, emergency_sell, RiskMonitor.new, hfrac]
    exact congrArg (Sell.mk 0.2) (mul_comm s 0.2)
  constructor
  · simp only [check_moon_exit, RiskMonitor.new]
    by_cases hm : price / p ≥ 50.0
    · rw [if_pos hm]
      simp [hm]
    · rw [if_neg hm]
      by_cases ht : elapsed > 86400
      · rw [if_pos ht]
        simp [ht]
      · rw [if_neg ht]
        simp [hm, ht]
  · intro x hx
    simp only [check_moon_exit] at hx
    split at hx
    · rw [List.mem_singleton] at hx
      rw [hx, hmoon]
    · split at hx
      · rw [List.mem_singleton] at hx
        rw [hx, hmoon]
      · exact absurd hx (List.not_mem_nil x)

/-- C8 witness: the amended theorem at entry 1, stake 10, price 60 (a 60x
multiplier), elapsed 0 s. -/
theorem C8_witness :
    (check_moon_exit (RiskMonitor.new 1 10) 60 0 ≠ [] ↔
      (60 : ℚ) / 1 ≥ 50.0 ∨ 86400 < 0) ∧
    ∀ x ∈ check_moon_exit (RiskMonitor.new 1 10) 60 0, x = ⟨0.2, 0.2 * 10⟩ :=
  C8_moon_exit_threshold 1 10 60 0 (by norm_num)
